import Mathlib

/-!
Verification of the vote-validation and seat-allocation core of
`src/main.py` (SGA election verification).

The Python code is shallowly embedded: a pandas cell is a `PyVal`
(a string, an integer, or the float NaN that pandas puts in empty
cells), a DataFrame row is an association list from column names to
cells, and an operation that can raise a Python exception is embedded
as an `Except String` computation whose error value names the
exception class.  Dictionaries with insertion order (Python `dict`)
are association lists; a `set` of strings is a `List String` to which
elements are only ever added when absent.
-/

namespace SGAElection

/-- Value held in one cell of a pandas DataFrame, as far as this
program observes it: a string, an integer, or NaN (the float that
pandas stores in an empty cell). -/
inductive PyVal where
  | vStr (s : String)
  | vNat (n : Nat)
  | vNaN
deriving DecidableEq

/-- Pandas elementwise equality as used in `data_df["CWID"] == cwid`:
values of different kinds are unequal and NaN is not equal to
anything, itself included. -/
def pyEq : PyVal → PyVal → Bool
  | .vStr s, .vStr t => s == t
  | .vNat m, .vNat n => m == n
  | _, _ => false

/-- Python `str()` applied to a cell, as in `str(row["Campus Wide ID (CWID)"])`. -/
def pyStr : PyVal → String
  | .vStr s => s
  | .vNat n => toString n
  | .vNaN => "nan"

/-- Python `isinstance(v, str)`. -/
def isStr : PyVal → Bool
  | .vStr _ => true
  | _ => false

/-- One row of the votes DataFrame: column name to cell value. -/
abbrev Row := List (String × PyVal)

/-- Python `row[column]` on a Series: the cell when the column exists,
otherwise a raised `KeyError`. -/
def rowGet (row : Row) (column : String) : Except String PyVal :=
  match row.find? (fun p => p.1 == column) with
  | some p => .ok p.2
  | none => .error "KeyError"

/-- One row of the student-data DataFrame, restricted to the two
columns the program reads. -/
structure StudentRow where
  cwid : PyVal
  major : PyVal
deriving DecidableEq

/-- Python `str.lower()` on one character: ASCII upper-case letters map to
lower case (the only case the roster data exercises). -/
def lower_char (c : Char) : Char :=
  if 'A' ≤ c ∧ c ≤ 'Z' then Char.ofNat (c.toNat + 32) else c

/-- Python `str.lower()`. -/
def py_lower (s : String) : String :=
  String.mk (s.data.map lower_char)

/-- Python `str.split(", ")` on a character list: scan left to right and cut
at each non-overlapping occurrence of the two-character separator.  The
separator is fixed to `", "`, the only one the program uses (src/main.py
line 255).  Splitting the empty list yields one empty part, like Python's
`"".split(", ") == [""]`. -/
def split_commaspace : List Char → List (List Char)
  | [] => [[]]
  | [c] => [[c]]
  | c1 :: c2 :: rest =>
    if c1 = ',' ∧ c2 = ' ' then
      [] :: split_commaspace rest
    else
      match split_commaspace (c2 :: rest) with
      | [] => [[c1]]
      | g :: gs => (c1 :: g) :: gs

/-- Python `candidate_list.split(", ")`. -/
def py_split (s : String) : List String :=
  (split_commaspace s.data).map String.mk

/-- Embedding of `school_by_major` (src/main.py lines 154-171): lower-cases
the major and returns the first school of `data_dict` whose major list
contains it, `none` when the major is `None` or matches no school. -/
def school_by_major (major : Option String) (data_dict : List (String × List String)) :
    Option String :=
  match major with
  | none => none
  | some m =>
    match data_dict.find? (fun p => p.2.contains (py_lower m)) with
    | some p => some p.1
    | none => none

/-- Embedding of `school_by_cwid` (src/main.py lines 175-191): selects the
first student row whose CWID cell equals `cwid` (pandas elementwise
equality) and lower-cases its major.  When that major cell is not a
string (for example NaN from an empty cell), `.lower()` raises an
`AttributeError`.  The `data_dict` argument stands for the module-level
`school_majors` imported from `dict.py`, a file that is not part of
src/; per the documentation it maps each of the four school codes to a
list of lowercase major names, and all results below hold for every
such dictionary. -/
def school_by_cwid (cwid : PyVal) (data_df : List StudentRow)
    (data_dict : List (String × List String)) : Except String (Option String) :=
  match data_df.find? (fun r => pyEq r.cwid cwid) with
  | some r =>
    match r.major with
    | .vStr s => .ok (school_by_major (some (py_lower s)) data_dict)
    | _ => .error "AttributeError"
  | none => .ok (school_by_major none data_dict)

/-- The `schools` dictionary built in `get_nominees_school` (src/main.py
lines 207-212), in its insertion order: the base candidate column maps
to "ses" and the three suffixed columns map to "sob", "sse", "hass". -/
def nominee_fields (candidate_column_name : String) : List (String × String) :=
  [(candidate_column_name, "ses"),
   (candidate_column_name ++ ".1", "sob"),
   (candidate_column_name ++ ".2", "sse"),
   (candidate_column_name ++ ".3", "hass")]

/-- The loop of `get_nominees_school` (src/main.py lines 213-217): read each
column in order (raising `KeyError` when a column is absent) and return
the first school whose cell holds a string, together with that string. -/
def scan_fields (row : Row) : List (String × String) → Except String (Option (String × String))
  | [] => .ok none
  | (column, school) :: rest =>
    match rowGet row column with
    | .error e => .error e
    | .ok v =>
      match v with
      | .vStr s => .ok (some (school, s))
      | _ => scan_fields row rest

/-- Embedding of `get_nominees_school` (src/main.py lines 195-217). -/
def get_nominees_school (row : Row) (candidate_column_name : String) :
    Except String (Option (String × String)) :=
  scan_fields row (nominee_fields candidate_column_name)

/-- The `voting_record` dictionary (src/main.py lines 122-127). -/
structure VotingRecord where
  valid : Nat
  invalid : Nat
  wrong_school : Nat
  duplicate : Nat
deriving DecidableEq

/-- The `votes` dictionary: candidate name to vote count, in insertion
order like a Python dict. -/
abbrev Votes := List (String × Nat)

/-- Python `votes[candidate]` as an optional lookup. -/
def votesCount (votes : Votes) (candidate : String) : Option Nat :=
  (votes.find? (fun p => p.1 == candidate)).map (fun p => p.2)

/-- The body of the `add_votes` loop for one candidate (src/main.py lines
147-150): `votes[candidate] = 1` when the key is new (a Python dict
appends new keys at the end), `votes[candidate] += 1` otherwise. -/
def bump (votes : Votes) (candidate : String) : Votes :=
  if votes.any (fun p => p.1 == candidate) then
    votes.map (fun p => if p.1 == candidate then (p.1, p.2 + 1) else p)
  else
    votes ++ [(candidate, 1)]

/-- Embedding of `add_votes` (src/main.py lines 133-150): for each candidate
in the list, increment the "valid" counter and bump that candidate's
tally entry. -/
def add_votes : List String → Votes → VotingRecord → Votes × VotingRecord
  | [], votes, voting_record => (votes, voting_record)
  | candidate :: rest, votes, voting_record =>
    add_votes rest (bump votes candidate)
      { voting_record with valid := voting_record.valid + 1 }

/-- The voter-identifier column name used by `verify_vote`. -/
def cwid_column : String := "Campus Wide ID (CWID)"

/-- Embedding of `verify_vote` (src/main.py lines 221-256).  The state it
mutates in Python (`votes`, `voting_record`, `voter_cwids`) is passed in
and the updated state is returned; a Python exception becomes an
`Except.error`.  As in the source, the voter's school and the nominee
school are both computed before any classification branch, so an
exception in either lookup propagates regardless of the eventual
classification. -/
def verify_vote (row : Row) (votes : Votes) (voting_record : VotingRecord)
    (voter_cwids : List String) (data_df : List StudentRow)
    (data_dict : List (String × List String)) (school : String)
    (candidate_column_name : String) :
    Except String (Votes × VotingRecord × List String) :=
  match rowGet row cwid_column with
  | .error e => .error e
  | .ok cwid =>
    match school_by_cwid cwid data_df data_dict with
    | .error e => .error e
    | .ok voter_school =>
      match get_nominees_school row candidate_column_name with
      | .error e => .error e
      | .ok none =>
        .ok (votes, { voting_record with invalid := voting_record.invalid + 1 },
          voter_cwids)
      | .ok (some (nominee_school, candidate_list)) =>
        if nominee_school ≠ school ∨ voter_school ≠ some school then
          .ok (votes, { voting_record with wrong_school := voting_record.wrong_school + 1 },
            voter_cwids)
        else if pyStr cwid ∈ voter_cwids then
          .ok (votes, { voting_record with duplicate := voting_record.duplicate + 1 },
            voter_cwids)
        else
          let p := add_votes (py_split candidate_list) votes voting_record
          .ok (p.1, p.2, pyStr cwid :: voter_cwids)

/-- Embedding of `initialize_setups` (src/main.py lines 112-129). -/
def initialize_setups : Votes × VotingRecord × List String :=
  ([], { valid := 0, invalid := 0, wrong_school := 0, duplicate := 0 }, [])

/-- Embedding of `iterate_votes` (src/main.py lines 260-287): run
`verify_vote` on each row in order, threading the state; a raised
exception aborts the loop. -/
def iterate_votes (rows : List Row) (votes : Votes) (voting_record : VotingRecord)
    (voter_cwids : List String) (data_df : List StudentRow)
    (data_dict : List (String × List String)) (school : String)
    (candidate_column_name : String) :
    Except String (Votes × VotingRecord × List String) :=
  match rows with
  | [] => .ok (votes, voting_record, voter_cwids)
  | row :: rest =>
    match verify_vote row votes voting_record voter_cwids data_df data_dict school
      candidate_column_name with
    | .error e => .error e
    | .ok st =>
      iterate_votes rest st.1 st.2.1 st.2.2 data_df data_dict school candidate_column_name

/-- One step of `group_votes_by_num`: `votes_by_num[value].append(key)` on a
`defaultdict(list)`, which appends a fresh key at the end. -/
def append_group (acc : List (Nat × List String)) (num : Nat) (candidate : String) :
    List (Nat × List String) :=
  if acc.any (fun q => q.1 == num) then
    acc.map (fun q => if q.1 == num then (q.1, q.2 ++ [candidate]) else q)
  else
    acc ++ [(num, [candidate])]

/-- Embedding of `group_votes_by_num` (src/main.py lines 305-318). -/
def group_votes_by_num (votes : Votes) : List (Nat × List String) :=
  votes.foldl (fun acc p => append_group acc p.2 p.1) []

/-- Insertion step of Python `sorted(votes.items(), key by count, reverse)`:
place an item after every already-placed item with a greater-or-equal
count, which keeps the stable order of equal counts. -/
def insert_desc_vote (p : String × Nat) : Votes → Votes
  | [] => [p]
  | q :: rest => if p.2 ≤ q.2 then q :: insert_desc_vote p rest else p :: q :: rest

/-- Embedding of `sort_votes` (src/main.py lines 291-301). -/
def sort_votes (votes : Votes) : Votes :=
  votes.foldl (fun acc p => insert_desc_vote p acc) []

/-- Insertion step of `sorted(votes_by_num.items(), reverse=True)`: groups
are ordered by strictly descending vote count (dict keys are distinct;
on equal keys the stable original order is kept). -/
def insert_desc_group (p : Nat × List String) :
    List (Nat × List String) → List (Nat × List String)
  | [] => [p]
  | q :: rest => if p.1 ≤ q.1 then q :: insert_desc_group p rest else p :: q :: rest

/-- Sorting of the grouped tally by descending vote count, as performed at
src/main.py line 336. -/
def sort_groups_desc (l : List (Nat × List String)) : List (Nat × List String) :=
  l.foldl (fun acc p => insert_desc_group p acc) []

/-- The loop of `determine_elected` (src/main.py lines 336-342) over the
already-sorted groups.  `num_seats` is a Python int, embedded as `Int`
so that `num_seats - len(elected)` is ordinary subtraction. -/
def allocate_seats (num_seats : Int) :
    List (Nat × List String) → List String →
    List String × Option Int × Option (List String)
  | [], elected => (elected, none, none)
  | (_, value) :: rest, elected =>
    if (value.length : Int) ≤ num_seats - elected.length then
      allocate_seats num_seats rest (elected ++ value)
    else
      (elected, some (num_seats - elected.length), some value)

/-- Embedding of `determine_elected` (src/main.py lines 322-343). -/
def determine_elected (votes_by_num : List (Nat × List String)) (num_seats : Int) :
    List String × Option Int × Option (List String) :=
  allocate_seats num_seats (sort_groups_desc votes_by_num) []

/-- Sum of the four voting-record counters. -/
def record_sum (voting_record : VotingRecord) : Nat :=
  voting_record.valid + voting_record.invalid + voting_record.wrong_school +
    voting_record.duplicate

/-- Total number of candidate names held in a grouped tally. -/
def total_candidates (l : List (Nat × List String)) : Nat :=
  (l.map (fun g => g.2.length)).sum

/-! Lemmas about the tally update `bump`. -/

theorem find?_map_bump (votes : Votes) (c : String) :
    (votes.map (fun p => if p.1 == c then (p.1, p.2 + 1) else p)).find?
        (fun p => p.1 == c)
      = (votes.find? (fun p => p.1 == c)).map (fun p => (p.1, p.2 + 1)) := by
  induction votes with
  | nil => rfl
  | cons q rest ih =>
    by_cases h : q.1 = c
    · have hb : (q.1 == c) = true := by simp [h]
      rw [List.map_cons, List.find?_cons, List.find?_cons]
      simp only [hb, if_true]
      rfl
    · have hb : (q.1 == c) = false := by simp [h]
      rw [List.map_cons, List.find?_cons, List.find?_cons]
      simp only [hb, if_false, Bool.false_eq_true]
      exact ih

theorem find?_map_bump_other (votes : Votes) (c d : String) (h : d ≠ c) :
    (votes.map (fun p => if p.1 == c then (p.1, p.2 + 1) else p)).find?
        (fun p => p.1 == d)
      = votes.find? (fun p => p.1 == d) := by
  induction votes with
  | nil => rfl
  | cons q rest ih =>
    by_cases hc : q.1 = c
    · have hd : (q.1 == d) = false := by simp [hc, Ne.symm h]
      have hbc : (q.1 == c) = true := by simp [hc]
      rw [List.map_cons, List.find?_cons, List.find?_cons]
      simp only [hbc, if_true, hd, Bool.false_eq_true]
      exact ih
    · have hbc : (q.1 == c) = false := by simp [hc]
      rw [List.map_cons, List.find?_cons, List.find?_cons]
      simp only [hbc, if_false, Bool.false_eq_true]
      by_cases hd : q.1 = d
      · simp [hd]
      · have hbd : (q.1 == d) = false := by simp [hd]
        simp only [hbd, Bool.false_eq_true]
        exact ih

theorem find?_eq_none_of_any_false (votes : Votes) (c : String)
    (h : votes.any (fun p => p.1 == c) = false) :
    votes.find? (fun p => p.1 == c) = none := by
  induction votes with
  | nil => rfl
  | cons q rest ih =>
    simp only [List.any_cons, Bool.or_eq_false_iff] at h
    simp [List.find?, h.1, ih h.2]

theorem votesCount_bump_self (votes : Votes) (c : String) :
    votesCount (bump votes c) c = some ((votesCount votes c).getD 0 + 1) := by
  unfold bump votesCount
  by_cases ha : votes.any (fun p => p.1 == c) = true
  · rw [if_pos ha, find?_map_bump]
    rcases List.any_eq_true.mp ha with ⟨p, hp, hpc⟩
    have : (votes.find? (fun p => p.1 == c)).isSome := by
      rw [List.find?_isSome]
      exact ⟨p, hp, hpc⟩
    rcases Option.isSome_iff_exists.mp this with ⟨q, hq⟩
    simp [hq]
  · rw [if_neg ha]
    have hnone := find?_eq_none_of_any_false votes c (Bool.eq_false_iff.mpr ha)
    rw [List.find?_append, hnone]
    simp [List.find?]

theorem votesCount_bump_other (votes : Votes) (c d : String) (h : d ≠ c) :
    votesCount (bump votes c) d = votesCount votes d := by
  unfold bump votesCount
  by_cases ha : votes.any (fun p => p.1 == c) = true
  · rw [if_pos ha, find?_map_bump_other votes c d h]
  · rw [if_neg ha, List.find?_append]
    cases hf : votes.find? (fun p => p.1 == d) with
    | some q => simp [hf]
    | none =>
      have hcd : (c == d) = false := by simp [Ne.symm h]
      simp [hf, List.find?_cons, hcd]

/-! Lemmas about `add_votes`. -/

theorem add_votes_record (l : List String) (votes : Votes) (vr : VotingRecord) :
    (add_votes l votes vr).2
      = { vr with valid := vr.valid + l.length } := by
  induction l generalizing votes vr with
  | nil => simp [add_votes]
  | cons c rest ih =>
    rw [add_votes, ih]
    simp [Nat.add_assoc, Nat.add_comm 1 rest.length]

theorem add_votes_count_notMem (l : List String) (votes : Votes) (vr : VotingRecord)
    (c : String) (h : c ∉ l) :
    votesCount (add_votes l votes vr).1 c = votesCount votes c := by
  induction l generalizing votes vr with
  | nil => rfl
  | cons a rest ih =>
    have hc : c ≠ a := fun hca => h (hca ▸ List.mem_cons_self a rest)
    have hr : c ∉ rest := fun hcr => h (List.mem_cons_of_mem a hcr)
    rw [add_votes, ih _ _ hr, votesCount_bump_other votes a c hc]

theorem add_votes_count_mem (l : List String) (votes : Votes) (vr : VotingRecord)
    (c : String) (hl : l.Nodup) (h : c ∈ l) :
    votesCount (add_votes l votes vr).1 c
      = some ((votesCount votes c).getD 0 + 1) := by
  induction l generalizing votes vr with
  | nil => cases h
  | cons a rest ih =>
    rw [List.nodup_cons] at hl
    rcases List.mem_cons.mp h with hca | hcr
    · subst hca
      rw [add_votes, add_votes_count_notMem rest _ _ c hl.1,
        votesCount_bump_self]
    · have hc : c ≠ a := fun hca => hl.1 (hca ▸ hcr)
      rw [add_votes, ih _ _ hl.2 hcr, votesCount_bump_other votes a c hc]

/-- C4: for a validated ballot's candidate list (distinct names, as produced
by a well-formed multi-select answer), `add_votes` adds the number of named
candidates to the valid counter, leaves the other three counters unchanged,
gives each named candidate exactly one more vote (creating a one-vote entry
when the candidate is new), and changes no other tally entry. -/
theorem claim_C4 (candidate_list : List String) (votes : Votes)
    (voting_record : VotingRecord) (hnd : candidate_list.Nodup) :
    (add_votes candidate_list votes voting_record).2.valid
        = voting_record.valid + candidate_list.length ∧
    (add_votes candidate_list votes voting_record).2.invalid
        = voting_record.invalid ∧
    (add_votes candidate_list votes voting_record).2.wrong_school
        = voting_record.wrong_school ∧
    (add_votes candidate_list votes voting_record).2.duplicate
        = voting_record.duplicate ∧
    (∀ c ∈ candidate_list,
      votesCount (add_votes candidate_list votes voting_record).1 c
        = some ((votesCount votes c).getD 0 + 1)) ∧
    (∀ c, c ∉ candidate_list →
      votesCount (add_votes candidate_list votes voting_record).1 c
        = votesCount votes c) := by
  refine ⟨?_, ?_, ?_, ?_, ?_, ?_⟩
  · rw [add_votes_record]
  · rw [add_votes_record]
  · rw [add_votes_record]
  · rw [add_votes_record]
  · exact fun c hc => add_votes_count_mem candidate_list votes voting_record c hnd hc
  · exact fun c hc => add_votes_count_notMem candidate_list votes voting_record c hc

/-- Witness for C4 at a concrete input: the ballot `["Alice", "Bob"]` against
a tally where Alice already has 2 votes and a record with 5 valid votes. -/
theorem claim_C4_witness :
    (add_votes ["Alice", "Bob"] [("Alice", 2)] ⟨5, 1, 2, 3⟩).2.valid = 5 + 2 ∧
    votesCount (add_votes ["Alice", "Bob"] [("Alice", 2)] ⟨5, 1, 2, 3⟩).1 "Bob"
      = some ((votesCount [("Alice", 2)] "Bob").getD 0 + 1) :=
  ⟨(claim_C4 ["Alice", "Bob"] [("Alice", 2)] ⟨5, 1, 2, 3⟩ (by decide)).1,
   (claim_C4 ["Alice", "Bob"] [("Alice", 2)] ⟨5, 1, 2, 3⟩ (by decide)).2.2.2.2.1 "Bob"
     (by decide)⟩

/-! Characterizations of the four classification branches of `verify_vote`,
under the hypothesis that the three lookups preceding the branching
succeed. -/

theorem verify_vote_invalid (row : Row) (votes : Votes) (vr : VotingRecord)
    (cwids : List String) (df : List StudentRow) (dict : List (String × List String))
    (school ccn : String) (cwid : PyVal) (vs : Option String)
    (h1 : rowGet row cwid_column = .ok cwid)
    (h2 : school_by_cwid cwid df dict = .ok vs)
    (h3 : get_nominees_school row ccn = .ok none) :
    verify_vote row votes vr cwids df dict school ccn
      = .ok (votes, { vr with invalid := vr.invalid + 1 }, cwids) := by
  unfold verify_vote
  simp only [h1, h2, h3]

theorem verify_vote_wrong (row : Row) (votes : Votes) (vr : VotingRecord)
    (cwids : List String) (df : List StudentRow) (dict : List (String × List String))
    (school ccn : String) (cwid : PyVal) (vs : Option String) (ns cl : String)
    (h1 : rowGet row cwid_column = .ok cwid)
    (h2 : school_by_cwid cwid df dict = .ok vs)
    (h3 : get_nominees_school row ccn = .ok (some (ns, cl)))
    (hw : ns ≠ school ∨ vs ≠ some school) :
    verify_vote row votes vr cwids df dict school ccn
      = .ok (votes, { vr with wrong_school := vr.wrong_school + 1 }, cwids) := by
  unfold verify_vote
  simp only [h1, h2, h3]
  rw [if_pos hw]

theorem verify_vote_dup (row : Row) (votes : Votes) (vr : VotingRecord)
    (cwids : List String) (df : List StudentRow) (dict : List (String × List String))
    (school ccn : String) (cwid : PyVal) (cl : String)
    (h1 : rowGet row cwid_column = .ok cwid)
    (h2 : school_by_cwid cwid df dict = .ok (some school))
    (h3 : get_nominees_school row ccn = .ok (some (school, cl)))
    (hmem : pyStr cwid ∈ cwids) :
    verify_vote row votes vr cwids df dict school ccn
      = .ok (votes, { vr with duplicate := vr.duplicate + 1 }, cwids) := by
  unfold verify_vote
  simp only [h1, h2, h3]
  rw [if_neg (by simp), if_pos hmem]

theorem verify_vote_valid (row : Row) (votes : Votes) (vr : VotingRecord)
    (cwids : List String) (df : List StudentRow) (dict : List (String × List String))
    (school ccn : String) (cwid : PyVal) (cl : String)
    (h1 : rowGet row cwid_column = .ok cwid)
    (h2 : school_by_cwid cwid df dict = .ok (some school))
    (h3 : get_nominees_school row ccn = .ok (some (school, cl)))
    (hmem : pyStr cwid ∉ cwids) :
    verify_vote row votes vr cwids df dict school ccn
      = .ok ((add_votes (py_split cl) votes vr).1,
          (add_votes (py_split cl) votes vr).2, pyStr cwid :: cwids) := by
  unfold verify_vote
  simp only [h1, h2, h3]
  rw [if_neg (by simp), if_neg hmem]

/-- Exhaustive case analysis of a successful `verify_vote` call: the three
lookups succeeded, and the outcome is exactly one of the four branch
results. -/
theorem verify_vote_cases (row : Row) (votes : Votes) (vr : VotingRecord)
    (cwids : List String) (df : List StudentRow) (dict : List (String × List String))
    (school ccn : String) (votes' : Votes) (vr' : VotingRecord) (cwids' : List String)
    (h : verify_vote row votes vr cwids df dict school ccn = .ok (votes', vr', cwids')) :
    (votes' = votes ∧ vr' = { vr with invalid := vr.invalid + 1 } ∧ cwids' = cwids) ∨
    (votes' = votes ∧ vr' = { vr with wrong_school := vr.wrong_school + 1 } ∧
      cwids' = cwids) ∨
    (votes' = votes ∧ vr' = { vr with duplicate := vr.duplicate + 1 } ∧
      cwids' = cwids) ∨
    (∃ cwid cl, rowGet row cwid_column = .ok cwid ∧
      get_nominees_school row ccn = .ok (some (school, cl)) ∧
      pyStr cwid ∉ cwids ∧
      votes' = (add_votes (py_split cl) votes vr).1 ∧
      vr' = (add_votes (py_split cl) votes vr).2 ∧
      cwids' = pyStr cwid :: cwids) := by
  unfold verify_vote at h
  cases h1 : rowGet row cwid_column with
  | error e => rw [h1] at h; simp at h
  | ok cwid =>
  simp only [h1] at h
  cases h2 : school_by_cwid cwid df dict with
  | error e => rw [h2] at h; simp at h
  | ok vs =>
  simp only [h2] at h
  cases h3 : get_nominees_school row ccn with
  | error e => rw [h3] at h; simp at h
  | ok gns =>
  simp only [h3] at h
  cases gns with
  | none =>
    simp only [Except.ok.injEq, Prod.mk.injEq] at h
    exact Or.inl ⟨h.1.symm, h.2.1.symm, h.2.2.symm⟩
  | some p =>
    obtain ⟨ns, cl⟩ := p
    simp only at h
    by_cases hw : ns ≠ school ∨ vs ≠ some school
    · rw [if_pos hw] at h
      simp only [Except.ok.injEq, Prod.mk.injEq] at h
      exact Or.inr (Or.inl ⟨h.1.symm, h.2.1.symm, h.2.2.symm⟩)
    · rw [if_neg hw] at h
      push_neg at hw
      by_cases hmem : pyStr cwid ∈ cwids
      · rw [if_pos hmem] at h
        simp only [Except.ok.injEq, Prod.mk.injEq] at h
        exact Or.inr (Or.inr (Or.inl ⟨h.1.symm, h.2.1.symm, h.2.2.symm⟩))
      · rw [if_neg hmem] at h
        simp only [Except.ok.injEq, Prod.mk.injEq] at h
        refine Or.inr (Or.inr (Or.inr ⟨cwid, cl, rfl, ?_, hmem, h.1.symm, h.2.1.symm,
          h.2.2.symm⟩))
        rw [hw.1]

/-- C5: whenever the voter-school lookup and the nominee-field scan succeed,
`verify_vote` classifies the ballot by exactly the ordered rules of the
specification: no string-valued nominee field means invalid; otherwise a
nominee school or resolved voter school different from the target school
(an unresolved voter school included) means wrong_school; otherwise a CWID
string already seen means duplicate; otherwise the ballot is valid, the
CWID string is added to the seen set, and the candidate string is split on
the delimiter ", " and tallied. -/
theorem claim_C5 (row : Row) (votes : Votes) (vr : VotingRecord)
    (cwids : List String) (df : List StudentRow) (dict : List (String × List String))
    (school ccn : String) (cwid : PyVal) (vs : Option String)
    (gns : Option (String × String))
    (h1 : rowGet row cwid_column = .ok cwid)
    (h2 : school_by_cwid cwid df dict = .ok vs)
    (h3 : get_nominees_school row ccn = .ok gns) :
    (gns = none →
      verify_vote row votes vr cwids df dict school ccn
        = .ok (votes, { vr with invalid := vr.invalid + 1 }, cwids)) ∧
    (∀ ns cl, gns = some (ns, cl) → (ns ≠ school ∨ vs ≠ some school) →
      verify_vote row votes vr cwids df dict school ccn
        = .ok (votes, { vr with wrong_school := vr.wrong_school + 1 }, cwids)) ∧
    (∀ ns cl, gns = some (ns, cl) → ns = school → vs = some school →
      pyStr cwid ∈ cwids →
      verify_vote row votes vr cwids df dict school ccn
        = .ok (votes, { vr with duplicate := vr.duplicate + 1 }, cwids)) ∧
    (∀ ns cl, gns = some (ns, cl) → ns = school → vs = some school →
      pyStr cwid ∉ cwids →
      verify_vote row votes vr cwids df dict school ccn
        = .ok ((add_votes (py_split cl) votes vr).1,
            (add_votes (py_split cl) votes vr).2, pyStr cwid :: cwids)) := by
  refine ⟨?_, ?_, ?_, ?_⟩
  · intro hg
    exact verify_vote_invalid row votes vr cwids df dict school ccn cwid vs h1 h2
      (hg ▸ h3)
  · intro ns cl hg hw
    exact verify_vote_wrong row votes vr cwids df dict school ccn cwid vs ns cl h1 h2
      (hg ▸ h3) hw
  · intro ns cl hg hns hvs hmem
    exact verify_vote_dup row votes vr cwids df dict school ccn cwid cl h1
      (hvs ▸ h2) (hns ▸ hg ▸ h3) hmem
  · intro ns cl hg hns hvs hmem
    exact verify_vote_valid row votes vr cwids df dict school ccn cwid cl h1
      (hvs ▸ h2) (hns ▸ hg ▸ h3) hmem

/-- Witness for C5: a concrete in-school, first-time voter naming
"Alice, Bob" in the target school's field is classified valid, with the
CWID string recorded and the split names tallied. -/
theorem claim_C5_witness :
    verify_vote
        [(cwid_column, PyVal.vNat 1), ("Q1", PyVal.vStr "Alice, Bob"),
          ("Q1.1", PyVal.vNaN), ("Q1.2", PyVal.vNaN), ("Q1.3", PyVal.vNaN)]
        [] ⟨0, 0, 0, 0⟩ [] [⟨PyVal.vNat 1, PyVal.vStr "Computer Science"⟩]
        [("ses", ["computer science"])] "ses" "Q1"
      = .ok ((add_votes (py_split "Alice, Bob") [] ⟨0, 0, 0, 0⟩).1,
          (add_votes (py_split "Alice, Bob") [] ⟨0, 0, 0, 0⟩).2,
          pyStr (PyVal.vNat 1) :: []) :=
  (claim_C5
      [(cwid_column, PyVal.vNat 1), ("Q1", PyVal.vStr "Alice, Bob"),
        ("Q1.1", PyVal.vNaN), ("Q1.2", PyVal.vNaN), ("Q1.3", PyVal.vNaN)]
      [] ⟨0, 0, 0, 0⟩ [] [⟨PyVal.vNat 1, PyVal.vStr "Computer Science"⟩]
      [("ses", ["computer science"])] "ses" "Q1" (PyVal.vNat 1) (some "ses")
      (some ("ses", "Alice, Bob")) rfl rfl rfl).2.2.2 "ses" "Alice, Bob" rfl rfl rfl
    (by simp [pyStr])

/-- C6 fails as stated: with a roster placing CWID 1 in school "ses", a first
ballot from that voter is valid, but a second ballot from the same voter
whose nominee fields are all NaN is classified invalid, not duplicate — the
invalid check runs before the duplicate check, so "regardless of that
subsequent ballot's vote content" is false. -/
theorem claim_C6_counterexample :
    iterate_votes
        [[(cwid_column, PyVal.vNat 1), ("Q1", PyVal.vStr "Alice"),
            ("Q1.1", PyVal.vNaN), ("Q1.2", PyVal.vNaN), ("Q1.3", PyVal.vNaN)],
          [(cwid_column, PyVal.vNat 1), ("Q1", PyVal.vNaN), ("Q1.1", PyVal.vNaN),
            ("Q1.2", PyVal.vNaN), ("Q1.3", PyVal.vNaN)]]
        [] ⟨0, 0, 0, 0⟩ [] [⟨PyVal.vNat 1, PyVal.vStr "computer science"⟩]
        [("ses", ["computer science"])] "ses" "Q1"
      = .ok ([("Alice", 1)], ⟨1, 1, 0, 0⟩, ["1"]) ∧
    (⟨1, 1, 0, 0⟩ : VotingRecord).duplicate = 0 := by
  constructor
  · rfl
  · rfl

/-- C6 (amended): once a voter's CWID string is in the seen set (which its
first valid ballot put there), every later ballot from that voter that
passes the earlier checks — its first string-valued nominee field belongs
to the target school and its voter school resolves to the target school —
is classified duplicate regardless of which candidates it names; a later
ballot from the same voter that fails the invalid or wrong_school checks is
classified by those earlier rules instead. -/
theorem claim_C6 (row : Row) (votes : Votes) (vr : VotingRecord)
    (cwids : List String) (df : List StudentRow) (dict : List (String × List String))
    (school ccn : String) (cwid : PyVal) (cl : String)
    (h1 : rowGet row cwid_column = .ok cwid)
    (h2 : school_by_cwid cwid df dict = .ok (some school))
    (h3 : get_nominees_school row ccn = .ok (some (school, cl)))
    (hmem : pyStr cwid ∈ cwids) :
    verify_vote row votes vr cwids df dict school ccn
      = .ok (votes, { vr with duplicate := vr.duplicate + 1 }, cwids) :=
  verify_vote_dup row votes vr cwids df dict school ccn cwid cl h1 h2 h3 hmem

/-- Witness for C6: the voter with CWID 1 is already in the seen set, votes
again for different content ("Carol") in the target school's field, and is
classified duplicate. -/
theorem claim_C6_witness :
    verify_vote
        [(cwid_column, PyVal.vNat 1), ("Q1", PyVal.vStr "Carol"),
          ("Q1.1", PyVal.vNaN), ("Q1.2", PyVal.vNaN), ("Q1.3", PyVal.vNaN)]
        [("Alice", 1)] ⟨1, 0, 0, 0⟩ ["1"]
        [⟨PyVal.vNat 1, PyVal.vStr "computer science"⟩]
        [("ses", ["computer science"])] "ses" "Q1"
      = .ok ([("Alice", 1)], ⟨1, 0, 0, 1⟩, ["1"]) :=
  claim_C6
    [(cwid_column, PyVal.vNat 1), ("Q1", PyVal.vStr "Carol"),
      ("Q1.1", PyVal.vNaN), ("Q1.2", PyVal.vNaN), ("Q1.3", PyVal.vNaN)]
    [("Alice", 1)] ⟨1, 0, 0, 0⟩ ["1"]
    [⟨PyVal.vNat 1, PyVal.vStr "computer science"⟩]
    [("ses", ["computer science"])] "ses" "Q1" (PyVal.vNat 1) "Carol"
    rfl rfl rfl (by decide)

/-- C1 fails as stated: a valid ballot naming two candidates ("Alice, Bob")
increases the sum of the four counters by 2, not 1, because the valid
counter is incremented once per candidate name. -/
theorem claim_C1_counterexample :
    verify_vote
        [(cwid_column, PyVal.vNat 1), ("Q1", PyVal.vStr "Alice, Bob"),
          ("Q1.1", PyVal.vNaN), ("Q1.2", PyVal.vNaN), ("Q1.3", PyVal.vNaN)]
        [] ⟨0, 0, 0, 0⟩ [] [⟨PyVal.vNat 1, PyVal.vStr "computer science"⟩]
        [("ses", ["computer science"])] "ses" "Q1"
      = .ok ([("Alice", 1), ("Bob", 1)], ⟨2, 0, 0, 0⟩, ["1"]) ∧
    record_sum ⟨2, 0, 0, 0⟩ ≠ record_sum ⟨0, 0, 0, 0⟩ + 1 := by
  constructor
  · rfl
  · decide

/-- C1 (amended): each successful `verify_vote` call increases the sum of the
four counters by exactly 1 when the ballot is classified invalid,
wrong_school or duplicate, and by the number of ", "-separated candidate
names on the ballot when it is classified valid; the sum therefore equals
the number of ballots processed only while every valid ballot names exactly
one candidate. -/
theorem claim_C1 (row : Row) (votes : Votes) (vr : VotingRecord)
    (cwids : List String) (df : List StudentRow) (dict : List (String × List String))
    (school ccn : String) (votes' : Votes) (vr' : VotingRecord) (cwids' : List String)
    (h : verify_vote row votes vr cwids df dict school ccn = .ok (votes', vr', cwids')) :
    record_sum vr' = record_sum vr + 1 ∨
    (∃ cl, get_nominees_school row ccn = .ok (some (school, cl)) ∧
      vr'.valid = vr.valid + (py_split cl).length ∧
      record_sum vr' = record_sum vr + (py_split cl).length) := by
  rcases verify_vote_cases row votes vr cwids df dict school ccn votes' vr' cwids' h with
    ⟨_, hv, _⟩ | ⟨_, hv, _⟩ | ⟨_, hv, _⟩ | ⟨cwid, cl, _, hnm, _, _, hv, _⟩
  · left; subst hv; dsimp only [record_sum]; omega
  · left; subst hv; dsimp only [record_sum]; omega
  · left; subst hv; dsimp only [record_sum]; omega
  · right
    refine ⟨cl, hnm, ?_, ?_⟩ <;>
      (rw [hv, add_votes_record]; try dsimp only [record_sum]; try omega)

/-- Witness for C1 at the two-candidate valid ballot of the counterexample:
the disjunction holds through its second case with a delta of 2. -/
theorem claim_C1_witness :
    record_sum ⟨2, 0, 0, 0⟩ = record_sum ⟨0, 0, 0, 0⟩ + 1 ∨
    (∃ cl, get_nominees_school
          [(cwid_column, PyVal.vNat 1), ("Q1", PyVal.vStr "Alice, Bob"),
            ("Q1.1", PyVal.vNaN), ("Q1.2", PyVal.vNaN), ("Q1.3", PyVal.vNaN)] "Q1"
        = .ok (some ("ses", cl)) ∧
      (⟨2, 0, 0, 0⟩ : VotingRecord).valid
        = (⟨0, 0, 0, 0⟩ : VotingRecord).valid + (py_split cl).length ∧
      record_sum ⟨2, 0, 0, 0⟩ = record_sum ⟨0, 0, 0, 0⟩ + (py_split cl).length) :=
  claim_C1
    [(cwid_column, PyVal.vNat 1), ("Q1", PyVal.vStr "Alice, Bob"),
      ("Q1.1", PyVal.vNaN), ("Q1.2", PyVal.vNaN), ("Q1.3", PyVal.vNaN)]
    [] ⟨0, 0, 0, 0⟩ [] [⟨PyVal.vNat 1, PyVal.vStr "computer science"⟩]
    [("ses", ["computer science"])] "ses" "Q1"
    [("Alice", 1), ("Bob", 1)] ⟨2, 0, 0, 0⟩ ["1"] rfl

/-- Sum of the classification counters plus seen-set size grows by exactly
the number of rows processed, for any starting state. -/
theorem iterate_votes_class_sum (rows : List Row) (votes : Votes) (vr : VotingRecord)
    (cwids : List String) (df : List StudentRow) (dict : List (String × List String))
    (school ccn : String) (votes' : Votes) (vr' : VotingRecord) (cwids' : List String)
    (h : iterate_votes rows votes vr cwids df dict school ccn = .ok (votes', vr', cwids')) :
    vr'.invalid + vr'.wrong_school + vr'.duplicate + cwids'.length
      = vr.invalid + vr.wrong_school + vr.duplicate + cwids.length + rows.length := by
  induction rows generalizing votes vr cwids with
  | nil =>
    unfold iterate_votes at h
    simp only [Except.ok.injEq, Prod.mk.injEq] at h
    rw [← h.2.1, ← h.2.2]
    simp
  | cons row rest ih =>
    unfold iterate_votes at h
    cases hv : verify_vote row votes vr cwids df dict school ccn with
    | error e => rw [hv] at h; simp at h
    | ok st =>
    simp only [hv] at h
    have hrec := ih st.1 st.2.1 st.2.2 h
    rcases verify_vote_cases row votes vr cwids df dict school ccn st.1 st.2.1 st.2.2 hv with
      ⟨_, hv1, hc⟩ | ⟨_, hv1, hc⟩ | ⟨_, hv1, hc⟩ | ⟨c, cl, _, _, _, _, hv1, hc⟩
    · rw [hv1, hc] at hrec; dsimp only at hrec
      simp only [List.length_cons] at hrec ⊢; omega
    · rw [hv1, hc] at hrec; dsimp only at hrec
      simp only [List.length_cons] at hrec ⊢; omega
    · rw [hv1, hc] at hrec; dsimp only at hrec
      simp only [List.length_cons] at hrec ⊢; omega
    · rw [hv1, add_votes_record, hc] at hrec
      dsimp only at hrec
      simp only [List.length_cons] at hrec ⊢
      omega

/-- C9: a successful `verify_vote` call makes exactly one of four changes to
the classification state — increment invalid, increment wrong_school,
increment duplicate (each leaving the seen set untouched), or add exactly
one new CWID string to the seen set (leaving those three counters
untouched) — and consequently, starting from `initialize_setups`,
invalid + wrong_school + duplicate + |seen_voters| equals the number of
ballots processed. -/
theorem claim_C9 :
    (∀ (row : Row) (votes : Votes) (vr : VotingRecord) (cwids : List String)
      (df : List StudentRow) (dict : List (String × List String)) (school ccn : String)
      (votes' : Votes) (vr' : VotingRecord) (cwids' : List String),
      verify_vote row votes vr cwids df dict school ccn = .ok (votes', vr', cwids') →
      ((vr'.invalid = vr.invalid + 1 ∧ vr'.wrong_school = vr.wrong_school ∧
          vr'.duplicate = vr.duplicate ∧ cwids' = cwids) ∨
        (vr'.invalid = vr.invalid ∧ vr'.wrong_school = vr.wrong_school + 1 ∧
          vr'.duplicate = vr.duplicate ∧ cwids' = cwids) ∨
        (vr'.invalid = vr.invalid ∧ vr'.wrong_school = vr.wrong_school ∧
          vr'.duplicate = vr.duplicate + 1 ∧ cwids' = cwids) ∨
        (∃ c, c ∉ cwids ∧ cwids' = c :: cwids ∧ vr'.invalid = vr.invalid ∧
          vr'.wrong_school = vr.wrong_school ∧ vr'.duplicate = vr.duplicate))) ∧
    (∀ (rows : List Row) (df : List StudentRow) (dict : List (String × List String))
      (school ccn : String) (votes' : Votes) (vr' : VotingRecord) (cwids' : List String),
      iterate_votes rows initialize_setups.1 initialize_setups.2.1 initialize_setups.2.2
          df dict school ccn = .ok (votes', vr', cwids') →
      vr'.invalid + vr'.wrong_school + vr'.duplicate + cwids'.length = rows.length) := by
  constructor
  · intro row votes vr cwids df dict school ccn votes' vr' cwids' h
    rcases verify_vote_cases row votes vr cwids df dict school ccn votes' vr' cwids' h with
      ⟨_, hv, hc⟩ | ⟨_, hv, hc⟩ | ⟨_, hv, hc⟩ | ⟨cwid, cl, _, _, hmem, _, hv, hc⟩
    · exact Or.inl (by rw [hv, hc]; exact ⟨rfl, rfl, rfl, rfl⟩)
    · exact Or.inr (Or.inl (by rw [hv, hc]; exact ⟨rfl, rfl, rfl, rfl⟩))
    · exact Or.inr (Or.inr (Or.inl (by rw [hv, hc]; exact ⟨rfl, rfl, rfl, rfl⟩)))
    · refine Or.inr (Or.inr (Or.inr ⟨pyStr cwid, hmem, hc, ?_, ?_, ?_⟩)) <;>
        rw [hv, add_votes_record]
  · intro rows df dict school ccn votes' vr' cwids' h
    have := iterate_votes_class_sum rows initialize_setups.1 initialize_setups.2.1
      initialize_setups.2.2 df dict school ccn votes' vr' cwids' h
    simpa [initialize_setups] using this

/-- Witness for C9: one concrete valid two-candidate ballot processed from
the initial state leaves invalid + wrong_school + duplicate + |seen| = 1. -/
theorem claim_C9_witness :
    (⟨2, 0, 0, 0⟩ : VotingRecord).invalid + (⟨2, 0, 0, 0⟩ : VotingRecord).wrong_school +
        (⟨2, 0, 0, 0⟩ : VotingRecord).duplicate + (["1"] : List String).length
      = ([[(cwid_column, PyVal.vNat 1), ("Q1", PyVal.vStr "Alice, Bob"),
          ("Q1.1", PyVal.vNaN), ("Q1.2", PyVal.vNaN), ("Q1.3", PyVal.vNaN)]] :
            List Row).length :=
  claim_C9.2
    [[(cwid_column, PyVal.vNat 1), ("Q1", PyVal.vStr "Alice, Bob"),
      ("Q1.1", PyVal.vNaN), ("Q1.2", PyVal.vNaN), ("Q1.3", PyVal.vNaN)]]
    [⟨PyVal.vNat 1, PyVal.vStr "computer science"⟩]
    [("ses", ["computer science"])] "ses" "Q1"
    [("Alice", 1), ("Bob", 1)] ⟨2, 0, 0, 0⟩ ["1"] rfl

/-- C10: the `isinstance(candidates, str)` test treats an empty-string cell
as a populated nominee field.  A ballot whose base nominee field holds ""
resolves to school "ses" with the empty candidate string; when such a
ballot is otherwise valid for a "ses" election, "" splits into the single
candidate name "", which receives one tally vote. -/
theorem claim_C10 (row : Row) (votes : Votes) (vr : VotingRecord)
    (cwids : List String) (df : List StudentRow) (dict : List (String × List String))
    (ccn : String) (cwid : PyVal)
    (hbase : rowGet row ccn = .ok (.vStr ""))
    (h1 : rowGet row cwid_column = .ok cwid)
    (h2 : school_by_cwid cwid df dict = .ok (some "ses"))
    (hmem : pyStr cwid ∉ cwids) :
    get_nominees_school row ccn = .ok (some ("ses", "")) ∧
    py_split "" = [""] ∧
    verify_vote row votes vr cwids df dict "ses" ccn
      = .ok (bump votes "", { vr with valid := vr.valid + 1 }, pyStr cwid :: cwids) ∧
    votesCount (bump votes "") "" = some ((votesCount votes "").getD 0 + 1) := by
  have hg : get_nominees_school row ccn = .ok (some ("ses", "")) := by
    unfold get_nominees_school nominee_fields
    simp only [scan_fields, hbase]
  refine ⟨hg, rfl, ?_, votesCount_bump_self votes ""⟩
  have := verify_vote_valid row votes vr cwids df dict "ses" ccn cwid "" h1 h2 hg hmem
  rw [this]
  rfl

/-- Witness for C10: a concrete ballot with "" in the base nominee field from
a first-time "ses" voter. -/
theorem claim_C10_witness :
    get_nominees_school
        [(cwid_column, PyVal.vNat 1), ("Q1", PyVal.vStr ""), ("Q1.1", PyVal.vNaN),
          ("Q1.2", PyVal.vNaN), ("Q1.3", PyVal.vNaN)] "Q1"
      = .ok (some ("ses", "")) ∧
    py_split "" = [""] ∧
    verify_vote
        [(cwid_column, PyVal.vNat 1), ("Q1", PyVal.vStr ""), ("Q1.1", PyVal.vNaN),
          ("Q1.2", PyVal.vNaN), ("Q1.3", PyVal.vNaN)]
        [] ⟨0, 0, 0, 0⟩ [] [⟨PyVal.vNat 1, PyVal.vStr "computer science"⟩]
        [("ses", ["computer science"])] "ses" "Q1"
      = .ok (bump [] "", ⟨0 + 1, 0, 0, 0⟩, pyStr (PyVal.vNat 1) :: []) ∧
    votesCount (bump [] "") "" = some ((votesCount [] "").getD 0 + 1) :=
  claim_C10
    [(cwid_column, PyVal.vNat 1), ("Q1", PyVal.vStr ""), ("Q1.1", PyVal.vNaN),
      ("Q1.2", PyVal.vNaN), ("Q1.3", PyVal.vNaN)]
    [] ⟨0, 0, 0, 0⟩ [] [⟨PyVal.vNat 1, PyVal.vStr "computer science"⟩]
    [("ses", ["computer science"])] "Q1" (PyVal.vNat 1) rfl rfl rfl (by simp [pyStr])

/-- C7 fails as stated: a ballot row lacking the nominee columns makes
`row[column]` raise a KeyError instead of degrading to invalid, and a
roster row whose Major cell is NaN makes `.lower()` raise an
AttributeError instead of degrading to invalid. -/
theorem claim_C7_counterexample :
    verify_vote [(cwid_column, PyVal.vNat 1)] [] ⟨0, 0, 0, 0⟩ []
        [⟨PyVal.vNat 1, PyVal.vStr "computer science"⟩]
        [("ses", ["computer science"])] "ses" "Q1"
      = .error "KeyError" ∧
    verify_vote
        [(cwid_column, PyVal.vNat 1), ("Q1", PyVal.vStr "Alice"), ("Q1.1", PyVal.vNaN),
          ("Q1.2", PyVal.vNaN), ("Q1.3", PyVal.vNaN)]
        [] ⟨0, 0, 0, 0⟩ [] [⟨PyVal.vNat 1, PyVal.vNaN⟩]
        [("ses", ["computer science"])] "ses" "Q1"
      = .error "AttributeError" := ⟨rfl, rfl⟩

/-- A row in which every listed column is present makes the nominee-field
scan succeed. -/
theorem scan_fields_total (row : Row) (fields : List (String × String))
    (hf : ∀ p ∈ fields, ∃ v, rowGet row p.1 = .ok v) :
    ∃ g, scan_fields row fields = .ok g := by
  induction fields with
  | nil => exact ⟨none, rfl⟩
  | cons p rest ih =>
    cases p with
    | mk column school =>
    obtain ⟨v, hv⟩ := hf (column, school) (List.mem_cons_self _ _)
    simp only [scan_fields, hv]
    cases v with
    | vStr s => exact ⟨some (school, s), rfl⟩
    | vNat n => exact ih (fun q hq => hf q (List.mem_cons_of_mem _ hq))
    | vNaN => exact ih (fun q hq => hf q (List.mem_cons_of_mem _ hq))

/-- C7 (amended): classification is total — `verify_vote` returns a
classification rather than raising — provided the CWID column and all four
nominee columns are present in the ballot row and the roster row matched by
the voter's CWID (if any) has a string-valued major; under those conditions
a non-string nominee cell is merely skipped.  Without them the call can
raise: a missing column raises KeyError and a matched non-string major
raises AttributeError, as the counterexample shows. -/
theorem claim_C7 (row : Row) (votes : Votes) (vr : VotingRecord)
    (cwids : List String) (df : List StudentRow) (dict : List (String × List String))
    (school ccn : String) (cwid : PyVal)
    (h1 : rowGet row cwid_column = .ok cwid)
    (hmajor : ∀ r, df.find? (fun r => pyEq r.cwid cwid) = some r →
      ∃ s, r.major = .vStr s)
    (hfields : ∀ p ∈ nominee_fields ccn, ∃ v, rowGet row p.1 = .ok v) :
    ∃ st, verify_vote row votes vr cwids df dict school ccn = .ok st := by
  have hsb : ∃ vs, school_by_cwid cwid df dict = .ok vs := by
    unfold school_by_cwid
    cases hfind : df.find? (fun r => pyEq r.cwid cwid) with
    | none => exact ⟨_, rfl⟩
    | some r =>
      obtain ⟨s, hs⟩ := hmajor r hfind
      dsimp only
      rw [hs]
      exact ⟨_, rfl⟩
  obtain ⟨vs, hvs⟩ := hsb
  obtain ⟨g, hg⟩ := scan_fields_total row (nominee_fields ccn) hfields
  have hg2 : get_nominees_school row ccn = .ok g := hg
  unfold verify_vote
  simp only [h1, hvs, hg2]
  cases g with
  | none => exact ⟨_, rfl⟩
  | some p =>
    cases p with
    | mk ns cl =>
    dsimp only
    by_cases hw : ns ≠ school ∨ vs ≠ some school
    · rw [if_pos hw]; exact ⟨_, rfl⟩
    · rw [if_neg hw]
      by_cases hmem : pyStr cwid ∈ cwids
      · rw [if_pos hmem]; exact ⟨_, rfl⟩
      · rw [if_neg hmem]; exact ⟨_, rfl⟩

/-- Witness for C7: a fully-populated row (with a NaN base nominee cell that
gets skipped) from a rostered voter classifies without an error. -/
theorem claim_C7_witness :
    ∃ st, verify_vote
        [(cwid_column, PyVal.vNat 1), ("Q1", PyVal.vNaN), ("Q1.1", PyVal.vStr "Bob"),
          ("Q1.2", PyVal.vNaN), ("Q1.3", PyVal.vNaN)]
        [] ⟨0, 0, 0, 0⟩ [] [⟨PyVal.vNat 1, PyVal.vStr "physics"⟩]
        [("ses", ["physics"])] "ses" "Q1" = .ok st :=
  claim_C7
    [(cwid_column, PyVal.vNat 1), ("Q1", PyVal.vNaN), ("Q1.1", PyVal.vStr "Bob"),
      ("Q1.2", PyVal.vNaN), ("Q1.3", PyVal.vNaN)]
    [] ⟨0, 0, 0, 0⟩ [] [⟨PyVal.vNat 1, PyVal.vStr "physics"⟩]
    [("ses", ["physics"])] "ses" "Q1" (PyVal.vNat 1) rfl
    (by
      intro r hr
      have hr2 : some (⟨PyVal.vNat 1, PyVal.vStr "physics"⟩ : StudentRow) = some r := by
        rw [← hr]; rfl
      exact ⟨"physics", by rw [← Option.some.inj hr2]⟩)
    (by
      intro p hp
      simp only [nominee_fields, List.mem_cons, List.not_mem_nil, or_false] at hp
      rcases hp with rfl | rfl | rfl | rfl
      · exact ⟨PyVal.vNaN, rfl⟩
      · exact ⟨PyVal.vStr "Bob", rfl⟩
      · exact ⟨PyVal.vNaN, rfl⟩
      · exact ⟨PyVal.vNaN, rfl⟩)

/-- C3 fails as stated: in a "sob" election, a ballot from a "sob" voter
with both the base field ("X") and the "sob" field ("Y") populated is
resolved from the base field, which always means school "ses" — the scan
order does not begin with the target school's field — so the ballot is
classified wrong_school rather than being resolved as ("sob", "Y"). -/
theorem claim_C3_counterexample :
    get_nominees_school
        [(cwid_column, PyVal.vNat 1), ("Q1", PyVal.vStr "X"), ("Q1.1", PyVal.vStr "Y"),
          ("Q1.2", PyVal.vNaN), ("Q1.3", PyVal.vNaN)] "Q1"
      = .ok (some ("ses", "X")) ∧
    verify_vote
        [(cwid_column, PyVal.vNat 1), ("Q1", PyVal.vStr "X"), ("Q1.1", PyVal.vStr "Y"),
          ("Q1.2", PyVal.vNaN), ("Q1.3", PyVal.vNaN)]
        [] ⟨0, 0, 0, 0⟩ [] [⟨PyVal.vNat 1, PyVal.vStr "business"⟩]
        [("sob", ["business"])] "sob" "Q1"
      = .ok ([], ⟨0, 0, 1, 0⟩, []) := ⟨rfl, rfl⟩

/-- The nominee-field scan returns the school and string of the first field
whose cell holds a string, skipping earlier fields whose present cells are
non-strings. -/
theorem scan_fields_first_string (row : Row) (pre rest : List (String × String))
    (column sch s : String)
    (hpre : ∀ p ∈ pre, ∃ v, rowGet row p.1 = .ok v ∧ isStr v = false)
    (hcol : rowGet row column = .ok (.vStr s)) :
    scan_fields row (pre ++ (column, sch) :: rest) = .ok (some (sch, s)) := by
  induction pre with
  | nil => simp only [List.nil_append, scan_fields, hcol]
  | cons q qre ih =>
    obtain ⟨v, hv, hnv⟩ := hpre q (List.mem_cons_self _ _)
    cases q with
    | mk qc qs =>
    simp only [List.cons_append, scan_fields, hv]
    cases v with
    | vStr t => simp [isStr] at hnv
    | vNat n => exact ih (fun p hp => hpre p (List.mem_cons_of_mem _ hp))
    | vNaN => exact ih (fun p hp => hpre p (List.mem_cons_of_mem _ hp))

/-- C3 (amended): the four nominee fields are scanned in the fixed order
base, ".1", ".2", ".3", mapped to the fixed school order ses, sob, sse,
hass — independent of the target school — and the first field whose cell
holds a string value (the empty string included) determines both the
nominee school and the candidate list. -/
theorem claim_C3 (row : Row) (ccn : String) (pre rest : List (String × String))
    (column sch s : String)
    (hdecomp : nominee_fields ccn = pre ++ (column, sch) :: rest)
    (hpre : ∀ p ∈ pre, ∃ v, rowGet row p.1 = .ok v ∧ isStr v = false)
    (hcol : rowGet row column = .ok (.vStr s)) :
    nominee_fields ccn
      = [(ccn, "ses"), (ccn ++ ".1", "sob"), (ccn ++ ".2", "sse"),
          (ccn ++ ".3", "hass")] ∧
    get_nominees_school row ccn = .ok (some (sch, s)) := by
  refine ⟨rfl, ?_⟩
  unfold get_nominees_school
  rw [hdecomp]
  exact scan_fields_first_string row pre rest column sch s hpre hcol

/-- Witness for C3: the base cell is a present non-string (NaN), so the
scan resolves from the ".1" field, yielding school "sob". -/
theorem claim_C3_witness :
    nominee_fields "Q1"
      = [("Q1", "ses"), ("Q1" ++ ".1", "sob"), ("Q1" ++ ".2", "sse"),
          ("Q1" ++ ".3", "hass")] ∧
    get_nominees_school
        [("Q1", PyVal.vNaN), ("Q1.1", PyVal.vStr "Y"), ("Q1.2", PyVal.vNaN),
          ("Q1.3", PyVal.vNaN)] "Q1"
      = .ok (some ("sob", "Y")) :=
  claim_C3
    [("Q1", PyVal.vNaN), ("Q1.1", PyVal.vStr "Y"), ("Q1.2", PyVal.vNaN),
      ("Q1.3", PyVal.vNaN)]
    "Q1" [("Q1", "ses")]
    [("Q1" ++ ".2", "sse"), ("Q1" ++ ".3", "hass")]
    ("Q1" ++ ".1") "sob" "Y" rfl
    (by
      intro p hp
      simp only [List.mem_singleton] at hp
      subst hp
      exact ⟨PyVal.vNaN, rfl, rfl⟩)
    rfl

/-! Lemmas about the seat allocator. -/

/-- C2 fails as stated: with grouped tally {5: [A, B], 3: [C]} and 2 seats,
the top group exactly fills the seats and the next group triggers the tie
branch with 0 remaining seats, so `determine_elected` returns a non-null
tied list together with remaining = 0. -/
theorem claim_C2_counterexample :
    (determine_elected [(5, ["A", "B"]), (3, ["C"])] 2).2.2 = some ["C"] ∧
    (determine_elected [(5, ["A", "B"]), (3, ["C"])] 2).2.1 = some 0 := ⟨rfl, rfl⟩

/-- When the allocation loop stops with a tied group, the remaining count it
reports is `num_seats` minus the seats already filled: nonnegative (as long
as the filled seats never exceeded `num_seats`), at most `num_seats`, and
strictly smaller than the size of the tied group. -/
theorem allocate_seats_tied (num_seats : Int) (groups : List (Nat × List String))
    (elected : List String) (t : List String)
    (hel : (elected.length : Int) ≤ num_seats)
    (h : (allocate_seats num_seats groups elected).2.2 = some t) :
    ∃ r : Int, (allocate_seats num_seats groups elected).2.1 = some r ∧
      0 ≤ r ∧ r ≤ num_seats ∧ r < (t.length : Int) := by
  induction groups generalizing elected with
  | nil => simp [allocate_seats] at h
  | cons g rest ih =>
    cases g with
    | mk k v =>
    by_cases hfit : (v.length : Int) ≤ num_seats - elected.length
    · rw [allocate_seats, if_pos hfit] at h ⊢
      have hel2 : ((elected ++ v).length : Int) ≤ num_seats := by
        simp only [List.length_append]
        push_cast
        omega
      exact ih (elected ++ v) hel2 h
    · rw [allocate_seats, if_neg hfit] at h ⊢
      simp only [Option.some.injEq] at h
      subst h
      refine ⟨num_seats - elected.length, rfl, ?_, ?_, ?_⟩ <;> omega

/-- C2 (amended): whenever `determine_elected` returns a non-null tied list
(for a nonnegative seat count), the remaining count is also non-null,
satisfies 0 ≤ remaining ≤ num_seats, and is strictly smaller than the tied
group's size — but remaining = 0 is reachable, as the counterexample
shows. -/
theorem claim_C2 (votes_by_num : List (Nat × List String)) (num_seats : Int)
    (hseats : 0 ≤ num_seats) (t : List String)
    (htied : (determine_elected votes_by_num num_seats).2.2 = some t) :
    ∃ r : Int, (determine_elected votes_by_num num_seats).2.1 = some r ∧
      0 ≤ r ∧ r ≤ num_seats ∧ r < (t.length : Int) := by
  unfold determine_elected at htied ⊢
  exact allocate_seats_tied num_seats (sort_groups_desc votes_by_num) [] t
    (by simpa using hseats) htied

/-- Witness for C2: three candidates tied at the top for 2 seats. -/
theorem claim_C2_witness :
    ∃ r : Int, (determine_elected [(5, ["A", "B", "C"])] 2).2.1 = some r ∧
      0 ≤ r ∧ r ≤ 2 ∧ r < ((["A", "B", "C"] : List String).length : Int) :=
  claim_C2 [(5, ["A", "B", "C"])] 2 (by decide) ["A", "B", "C"] rfl

/-- Membership is preserved by one descending insertion. -/
theorem mem_insert_desc_group (p q : Nat × List String)
    (l : List (Nat × List String)) :
    p ∈ insert_desc_group q l ↔ p = q ∨ p ∈ l := by
  induction l with
  | nil => simp [insert_desc_group]
  | cons a rest ih =>
    rw [insert_desc_group]
    by_cases hle : q.1 ≤ a.1
    · rw [if_pos hle]
      simp only [List.mem_cons, ih]
      tauto
    · rw [if_neg hle]
      simp only [List.mem_cons]

/-- Membership is preserved by the descending sort. -/
theorem mem_sort_groups_desc (p : Nat × List String) (l : List (Nat × List String)) :
    p ∈ sort_groups_desc l ↔ p ∈ l := by
  suffices h : ∀ acc, p ∈ l.foldl (fun acc q => insert_desc_group q acc) acc ↔
      p ∈ acc ∨ p ∈ l by
    have := h []
    simpa [sort_groups_desc] using this
  induction l with
  | nil => intro acc; simp
  | cons a rest ih =>
    intro acc
    simp only [List.foldl_cons, ih, mem_insert_desc_group, List.mem_cons]
    tauto

/-- Total number of candidate names is preserved by one descending
insertion. -/
theorem sum_insert_desc_group (q : Nat × List String) (l : List (Nat × List String)) :
    total_candidates (insert_desc_group q l)
      = q.2.length + total_candidates l := by
  induction l with
  | nil => simp [insert_desc_group, total_candidates]
  | cons a rest ih =>
    rw [insert_desc_group]
    by_cases hle : q.1 ≤ a.1
    · rw [if_pos hle]
      simp only [total_candidates, List.map_cons, List.sum_cons] at ih ⊢
      omega
    · rw [if_neg hle]
      simp only [total_candidates, List.map_cons, List.sum_cons]

/-- Total number of candidate names is preserved by the descending sort. -/
theorem sum_sort_groups_desc (l : List (Nat × List String)) :
    total_candidates (sort_groups_desc l) = total_candidates l := by
  suffices h : ∀ acc, total_candidates (l.foldl (fun acc q => insert_desc_group q acc) acc)
      = total_candidates acc + total_candidates l by
    have := h []
    simpa [sort_groups_desc, total_candidates] using this
  induction l with
  | nil => intro acc; simp [total_candidates]
  | cons a rest ih =>
    intro acc
    simp only [List.foldl_cons, ih, sum_insert_desc_group]
    simp only [total_candidates, List.map_cons, List.sum_cons]
    omega

/-- When the seats can hold every remaining candidate, the allocation loop
elects them all and never reaches the tie branch. -/
theorem allocate_seats_all (num_seats : Int) (groups : List (Nat × List String))
    (elected : List String)
    (hcap : (elected.length : Int) + (total_candidates groups : Int) ≤ num_seats) :
    allocate_seats num_seats groups elected
      = (elected ++ (groups.map (fun g => g.2)).flatten, none, none) := by
  induction groups generalizing elected with
  | nil => simp [allocate_seats]
  | cons g rest ih =>
    cases g with
    | mk k v =>
    simp only [total_candidates, List.map_cons, List.sum_cons] at hcap
    have hfit : (v.length : Int) ≤ num_seats - elected.length := by
      omega
    rw [allocate_seats, if_pos hfit]
    have hcap2 : ((elected ++ v).length : Int)
        + (total_candidates rest : Int) ≤ num_seats := by
      simp only [total_candidates, List.length_append]
      omega
    rw [ih (elected ++ v) hcap2]
    simp only [List.map_cons, List.flatten_cons, List.append_assoc]

/-- C8: when `num_seats` is at least the number of candidates that received
any vote, `determine_elected` returns null for both remaining and tied, and
its elected list consists of exactly the candidates of the grouped tally
(every candidate appears, and the list's length is the total number of
candidates). -/
theorem claim_C8 (votes_by_num : List (Nat × List String)) (num_seats : Int)
    (hseats : (total_candidates votes_by_num : Int) ≤ num_seats) :
    (determine_elected votes_by_num num_seats).2.1 = none ∧
    (determine_elected votes_by_num num_seats).2.2 = none ∧
    (determine_elected votes_by_num num_seats).1.length
      = total_candidates votes_by_num ∧
    ∀ c, c ∈ (determine_elected votes_by_num num_seats).1 ↔
      ∃ g ∈ votes_by_num, c ∈ g.2 := by
  have hcap : (([] : List String).length : Int)
      + (total_candidates (sort_groups_desc votes_by_num) : Int) ≤ num_seats := by
    rw [sum_sort_groups_desc]
    simpa using hseats
  have hall := allocate_seats_all num_seats (sort_groups_desc votes_by_num) [] hcap
  unfold determine_elected
  rw [hall]
  refine ⟨rfl, rfl, ?_, ?_⟩
  · simp only [List.nil_append, List.length_flatten, List.map_map]
    have h2 : ((sort_groups_desc votes_by_num).map (List.length ∘ fun g => g.2)).sum
        = total_candidates (sort_groups_desc votes_by_num) := rfl
    rw [h2, sum_sort_groups_desc]
  · intro c
    simp only [List.nil_append, List.mem_flatten, List.mem_map]
    constructor
    · rintro ⟨l, ⟨g, hg, rfl⟩, hc⟩
      exact ⟨g, (mem_sort_groups_desc g votes_by_num).mp hg, hc⟩
    · rintro ⟨g, hg, hc⟩
      exact ⟨g.2, ⟨g, (mem_sort_groups_desc g votes_by_num).mpr hg, rfl⟩, hc⟩

/-- Witness for C8: two candidates with votes and three seats — everyone is
elected, nothing remains tied. -/
theorem claim_C8_witness :
    (determine_elected [(2, ["A"]), (1, ["B"])] 3).2.1 = none ∧
    (determine_elected [(2, ["A"]), (1, ["B"])] 3).2.2 = none ∧
    (determine_elected [(2, ["A"]), (1, ["B"])] 3).1.length
      = total_candidates [(2, ["A"]), (1, ["B"])] ∧
    ∀ c, c ∈ (determine_elected [(2, ["A"]), (1, ["B"])] 3).1 ↔
      ∃ g ∈ ([(2, ["A"]), (1, ["B"])] : List (Nat × List String)), c ∈ g.2 :=
  claim_C8 [(2, ["A"]), (1, ["B"])] 3 (by decide)

end SGAElection
